import Mathlib

/-!
Verification model of the `brainrot` live-chat ingestion library.

Rust strings are modelled as lists of Unicode scalar values (`List Char`);
UTF-8 byte lengths are computed explicitly where the source indexes by bytes.
Fallible Rust code (functions using `?` on `Option`/`Result`, and panics on
`unwrap`/`assert`) is modelled with `Option`/`Except`.
-/

/-- Rust `String` / `&str`, modelled as its sequence of code points. -/
abbrev Str := List Char

/-- Literal helper: the code points of a Lean string literal. -/
def str (s : String) : Str := s.data

/-- Number of bytes in the UTF-8 encoding of one code point. -/
def utf8Size (c : Char) : Nat :=
  if c.toNat < 0x80 then 1
  else if c.toNat < 0x800 then 2
  else if c.toNat < 0x10000 then 3
  else 4

/-- Rust `str::len`: the UTF-8 byte length of a string. -/
def byteLen (s : Str) : Nat := (s.map utf8Size).sum

/-- Rust `str::char_indices().map(|(pos, _)| pos)`: byte offset of each code
point, starting from offset `acc`. -/
def charIndices : Str → Nat → List Nat
  | [], _ => []
  | c :: cs, acc => acc :: charIndices cs (acc + utf8Size c)

/-- Rust byte-range slicing `&s[a..b]` at char-boundary offsets: the code
points whose encoding lies entirely inside byte range `[a, b)`; `pos` is the
byte offset of the head of the list. -/
def byteRange : Str → Nat → Nat → Nat → Str
  | [], _, _, _ => []
  | c :: cs, pos, a, b =>
    let rest := byteRange cs (pos + utf8Size c) a b
    if a ≤ pos ∧ pos + utf8Size c ≤ b then c :: rest else rest

/-- Model of `util.rs::get_utf8_slice`: builds the chained iterator of char
byte positions plus the total byte length, skips `start` of them, peeks the
start position, advances `stop - start` times and peeks the end position;
`none` models the `?` on a failed peek. -/
def get_utf8_slice (s : Str) (start stop : Nat) : Option Str :=
  let iter := (charIndices s 0 ++ [byteLen s]).drop start
  match iter.head? with
  | none => none
  | some startPos =>
    match (iter.drop (stop - start)).head? with
    | none => none
    | some endPos => some (byteRange s 0 startPos endPos)

/-- Rust `s.splitn(2, sep)` yielding the piece before the first separator and,
when the separator occurs, the remainder after it. -/
def splitn2 (sep : Char) (l : Str) : Str × Option Str :=
  (l.takeWhile (· ≠ sep), if l.any (· = sep) then some ((l.dropWhile (· ≠ sep)).drop 1) else none)

/-- Digits-only decimal parse: at least one ASCII digit, value accumulated in
base 10 (no overflow cutoff here; range checks are applied by the callers). -/
def parseDigits (s : Str) : Option Nat :=
  if s ≠ [] ∧ s.all (·.isDigit) then
    some (s.foldl (fun a c => a * 10 + (c.toNat - '0'.toNat)) 0)
  else none

/-- Rust `s.parse::<uN>()`: optional leading `+`, then digits, value < 2^bits. -/
def parseUnsigned (bits : Nat) (s : Str) : Option Nat :=
  let ds := match s with
    | '+' :: rest => rest
    | _ => s
  (parseDigits ds).bind fun v => if v < 2 ^ bits then some v else none

/-- Rust `s.parse::<NonZeroU32>()`: a `u32` parse that rejects zero. -/
def parseNonZeroU32 (s : Str) : Option Nat :=
  (parseUnsigned 32 s).bind fun v => if v = 0 then none else some v

/-- Rust `s.parse::<NonZeroU16>()`: a `u16` parse that rejects zero. -/
def parseNonZeroU16 (s : Str) : Option Nat :=
  (parseUnsigned 16 s).bind fun v => if v = 0 then none else some v

/-- Rust `s.parse::<i64>()`: optional sign, digits, two's-complement range. -/
def parseI64 (s : Str) : Option Int :=
  match s with
  | '-' :: rest => (parseDigits rest).bind fun v => if v ≤ 2 ^ 63 then some (-(v : Int)) else none
  | '+' :: rest => (parseDigits rest).bind fun v => if v < 2 ^ 63 then some (v : Int) else none
  | _ => (parseDigits s).bind fun v => if v < 2 ^ 63 then some (v : Int) else none

/-- Hexadecimal digit test. -/
def isHexDigit (c : Char) : Bool :=
  c.isDigit ∨ ('a' ≤ c ∧ c ≤ 'f') ∨ ('A' ≤ c ∧ c ≤ 'F')

/-- Value of one hexadecimal digit. -/
def hexVal (c : Char) : Nat :=
  if c.isDigit then c.toNat - '0'.toNat
  else if 'a' ≤ c ∧ c ≤ 'f' then c.toNat - 'a'.toNat + 10
  else c.toNat - 'A'.toNat + 10

/-- Rust `u32::from_str_radix(s, 16)`: optional leading `+`, then hex digits,
value < 2^32. -/
def parseHexU32 (s : Str) : Option Nat :=
  let ds := match s with
    | '+' :: rest => rest
    | _ => s
  if ds ≠ [] ∧ ds.all isHexDigit then
    let v := ds.foldl (fun a c => a * 16 + hexVal c) 0
    if v < 2 ^ 32 then some v else none
  else none

/-- Model of `util.rs::MapNonempty::and_then_nonempty` on `Option<String>`:
apply `f` only when the string is present and non-empty. -/
def andThenNonempty {β : Type} (o : Option Str) (f : Str → Option β) : Option β :=
  o.bind fun c => if c = [] then none else f c

/-- Lookup in a map built by `collect::<HashMap<_, _>>()` from a key-value
sequence: the last occurrence of a key wins (later inserts overwrite). -/
def tagGet (tags : List (Str × Str)) (k : Str) : Option Str :=
  (tags.reverse.find? (fun p => p.1 = k)).map (·.2)

/-! ## Twitch IRC adapter (`src/twitch/event.rs`) -/

/-- Mirror of `event.rs::UserRole`. -/
inductive UserRole
  | normal
  | broadcaster
  | moderator
  | globalModerator
  | twitchAdmin
  | twitchStaff
deriving DecidableEq

/-- Mirror of `event.rs::MessageSegment`. -/
inductive MessageSegment
  | text (t : Str)
  | emote (name id : Str)
deriving DecidableEq

/-- Mirror of `event.rs::User`; `NonZeroU16` sub-month counts are carried as
`Nat`, UUIDs and timestamps as their parsed payloads. -/
structure User where
  username : Str
  displayName : Str
  id : Nat
  displayColor : Option Nat
  subMonths : Option Nat
  role : UserRole
  returningChatter : Bool
deriving DecidableEq

/-- Mirror of `event.rs::ChatEvent`; `Uuid` is kept as the validated string,
`DateTime<Utc>` as seconds since the epoch. -/
inductive ChatEvent
  | message (id : Str) (user : User) (sentAt : Int) (replyTo : Option Str)
      (emoteOnly firstMessage : Bool) (contents : List MessageSegment)
  | sendBits (id : Str) (user : User) (bits : Nat) (sentAt : Int)
      (segments : List MessageSegment)
  | memberChunk (names : List Str)
  | endOfMembers
deriving DecidableEq

/-- Mirror of `irc::proto::Prefix` as matched by `to_chat_event` (only the
`Nickname` shape is used; everything else is rejected). -/
inductive IrcSource
  | nickname (n1 n2 n3 : Str)
  | serverName (s : Str)
deriving DecidableEq

/-- Mirror of the `irc::proto::Command` cases `to_chat_event` distinguishes;
numeric responses carry their three-digit code. -/
inductive IrcCommand
  | privmsg (target body : Str)
  | response (code : Nat) (params : List Str)
  | otherCommand
deriving DecidableEq

/-- Mirror of `irc::proto::Message` as consumed by `to_chat_event`: optional
tag list (each tag optionally valued), optional source, command. -/
structure IrcMessage where
  tags : Option (List (Str × Option Str))
  prfx : Option IrcSource
  command : IrcCommand
deriving DecidableEq

/-- Lines 120-125 of `event.rs`: keep only tags whose value is present. -/
def filterTags (raw : List (Str × Option Str)) : List (Str × Str) :=
  raw.filterMap fun c => c.2.map fun v => (c.1, v)

/-- Lines 144-165 of `event.rs`: split a `badges`/`badge-info` tag on commas,
then each entry once on `/` into key and value; any entry without `/` makes
the whole parse fail (`collect::<Option<HashMap>>`). -/
def parseBadgePairs (c : Str) : Option (List (Str × Str)) :=
  (c.splitOn ',').mapM fun f => do
    let (k, vOpt) := splitn2 '/' f
    let v ← vOpt
    pure (k, v)

/-- Lines 169-182 of `event.rs`: parse the `emotes` tag. Pieces are separated
by `/`; the loop breaks at the first empty piece; each piece is
`id ":" ranges` (missing `:` fails the whole message), and each comma-
separated range is `from "-" to` with both bounds `usize`-parsed (a missing
`-` or a failed parse fails the whole message). -/
def parseEmotesTag (s : Str) : Option (List (Str × Nat × Nat)) :=
  go (s.splitOn '/')
where
  go : List Str → Option (List (Str × Nat × Nat))
    | [] => some []
    | piece :: rest =>
      if piece = [] then some []
      else do
        let (id, rangesOpt) := splitn2 ':' piece
        let ranges ← rangesOpt
        let rs ← (ranges.splitOn ',').mapM fun range => do
          let (fromS, toOpt) := splitn2 '-' range
          let f ← parseUnsigned 64 fromS
          let toS ← toOpt
          let t ← parseUnsigned 64 toS
          pure (id, f, t)
        let tail ← go rest
        pure (rs ++ tail)

/-- Stable insertion used by `sortEmotes`: place `x` before the first element
with a key not smaller than its own. -/
def insertEmote (x : Str × Nat × Nat) : List (Str × Nat × Nat) → List (Str × Nat × Nat)
  | [] => [x]
  | y :: ys => if x.2.1 ≤ y.2.1 then x :: y :: ys else y :: insertEmote x ys

/-- Line 183 of `event.rs`: `emotes.sort_by(|a, b| a.1.cmp(&b.1))`, a stable
sort on the range start (modelled with a stable insertion sort). -/
def sortEmotes : List (Str × Nat × Nat) → List (Str × Nat × Nat)
  | [] => []
  | x :: xs => insertEmote x (sortEmotes xs)

/-- Lines 187-206 of `event.rs`: walk the sorted emote list with cursor `i`,
emitting a gap `Text` before each emote, the emote slice itself, and finally a
trailing `Text` when the cursor is below `msg.len()` — the byte length. -/
def segLoop (msg : Str) : List (Str × Nat × Nat) → Nat → Option (List MessageSegment)
  | [], i =>
    if i < byteLen msg then do
      let t ← get_utf8_slice msg i (byteLen msg)
      pure [MessageSegment.text t]
    else pure []
  | (id, start, stop) :: rest, i => do
    let pre ← if start > i then do
        let t ← get_utf8_slice msg i start
        pure [MessageSegment.text t]
      else pure []
    if stop ≥ start then do
      let name ← get_utf8_slice msg start (stop + 1)
      let tail ← segLoop msg rest (stop + 1)
      pure (pre ++ MessageSegment.emote name id :: tail)
    else do
      let tail ← segLoop msg rest i
      pure (pre ++ tail)

/-- Lines 185-209 of `event.rs`: a non-empty emote list is walked by
`segLoop`; an empty one yields the single whole-body `Text` segment. -/
def buildSegments (msg : Str) (emotes : List (Str × Nat × Nat)) : Option (List MessageSegment) :=
  if emotes.isEmpty then some [MessageSegment.text msg]
  else segLoop msg emotes 0

/-- Lines 215-226 of `event.rs`: the user-role classification, in source
order: `user-type` values `admin`/`global_mod`/`staff` first, then `mod=1`,
then a `broadcaster` key among the badges, then `Normal`. -/
def classifyRole (tags badges : List (Str × Str)) : UserRole :=
  if tagGet tags (str "user-type") = some (str "admin") then .twitchAdmin
  else if tagGet tags (str "user-type") = some (str "global_mod") then .globalModerator
  else if tagGet tags (str "user-type") = some (str "staff") then .twitchStaff
  else if tagGet tags (str "mod") = some (str "1") then .moderator
  else if (tagGet badges (str "broadcaster")).isSome then .broadcaster
  else .normal

/-- Model of the external `uuid` crate's `Uuid::parse_str` on the tag format
the server sends: the hyphenated `8-4-4-4-12` hex form; the validated string
itself stands in for the parsed UUID. -/
def uuidParse (s : Str) : Option Str :=
  match s.splitOn '-' with
  | [a, b, c, d, e] =>
    if a.length = 8 ∧ b.length = 4 ∧ c.length = 4 ∧ d.length = 4 ∧ e.length = 12
        ∧ (a ++ b ++ c ++ d ++ e).all isHexDigit then
      some s
    else none
  | _ => none

/-- Model of the external `chrono` crate's `Utc.timestamp_opt(secs, 0).latest()`:
defined for seconds within chrono's representable date range. -/
def timestampLatest (secs : Int) : Option Int :=
  if -8334601228800 ≤ secs ∧ secs ≤ 8210266876799 then some secs else none

/-- Lines 237-249 of `event.rs`: the final dispatch — a `SendBits` event when
the `bits` tag is present, non-empty and parses as a `NonZeroU32`, a
`Message` event otherwise. -/
def finishEvent (tags : List (Str × Str)) (id : Str) (user : User) (sentAt : Int)
    (segments : List MessageSegment) : ChatEvent :=
  match andThenNonempty (tagGet tags (str "bits")) parseNonZeroU32 with
  | some bits => ChatEvent.sendBits id user bits sentAt segments
  | none =>
    ChatEvent.message id user sentAt
      ((tagGet tags (str "reply-parent-msg-id")).bind uuidParse)
      (tagGet tags (str "emote-only") = some (str "1"))
      (tagGet tags (str "first-msg") = some (str "1"))
      segments

/-- Lines 127-249 of `event.rs`: the `PRIVMSG` arm of `to_chat_event` after
the tag filter. All fallible steps (`?` on the missing prefix or `emotes`
tag, failed parses, failed slices) are `Option` binds in the source's
order. -/
def privmsgEvent (tags : List (Str × Str)) (source : Option IrcSource) (msg : Str) :
    Option ChatEvent :=
  source.bind fun src =>
  (match src with
    | .nickname n1 n2 _ =>
      some (n1,
        match tagGet tags (str "display-name") with
        | some displayName => if displayName = [] then n2 else displayName
        | none => n2)
    | _ => none).bind fun names =>
  (tagGet tags (str "emotes")).bind fun emotesStr =>
  (parseEmotesTag emotesStr).bind fun emotes =>
  (buildSegments msg (sortEmotes emotes)).bind fun segments =>
  ((tagGet tags (str "user-id")).bind (parseUnsigned 64)).bind fun userId =>
  ((tagGet tags (str "id")).bind uuidParse).bind fun id =>
  ((tagGet tags (str "tmi-sent-ts")).bind fun f =>
      (parseI64 f).map fun v => Int.tdiv v 1000).bind fun secs =>
  (timestampLatest secs).bind fun sentAt =>
  some (finishEvent tags id
    { username := names.1
      displayName := names.2
      displayColor := andThenNonempty (tagGet tags (str "color")) fun c => parseHexU32 (c.drop 1)
      role := classifyRole tags ((andThenNonempty (tagGet tags (str "badges")) parseBadgePairs).getD [])
      returningChatter := tagGet tags (str "returning-chatter") = some (str "1")
      subMonths := (tagGet ((andThenNonempty (tagGet tags (str "badge-info")) parseBadgePairs).getD [])
        (str "subscriber")).bind parseNonZeroU16
      id := userId }
    sentAt segments)

/-- Model of `event.rs::to_chat_event`, lines 117-255. The `names[3..]` slice
of `RPL_NAMREPLY` panics in Rust when fewer than three parameters are
present; the panic is modelled as `none`. -/
def to_chat_event (m : IrcMessage) : Option ChatEvent :=
  match m.command with
  | .privmsg _ msg => m.tags.bind fun rawTags => privmsgEvent (filterTags rawTags) m.prfx msg
  | .response 353 names => if names.length < 3 then none else some (ChatEvent.memberChunk (names.drop 3))
  | .response 366 _ => some ChatEvent.endOfMembers
  | _ => none

/-- Raw tag list with a well-formed one-emote `emotes` tag and every other
tag valid. -/
def rawTagsC1 : List (Str × Option Str) :=
  [(str "display-name", some (str "MiyukiWei")),
   (str "emotes", some (str "25:0-0")),
   (str "user-id", some (str "44")),
   (str "id", some (str "4f1f3b96-5cf3-4a7a-8db5-2b5c6e09a2bb")),
   (str "tmi-sent-ts", some (str "1700000000000"))]

/-- Concrete PRIVMSG with a well-formed one-emote `emotes` tag over the
non-ASCII body `"é"`; every other tag is valid. -/
def msgC1 : IrcMessage :=
  { tags := some rawTagsC1
    prfx := some (.nickname (str "miyukiwei") (str "miyukiwei") (str "miyukiwei.tmi.twitch.tv"))
    command := .privmsg (str "#chan") (str "é") }

/-- The same message with the one-code-point ASCII body `"e"`. -/
def msgC1ascii : IrcMessage :=
  { msgC1 with command := .privmsg (str "#chan") (str "e") }

/-- Raw tag list whose `bits` tag is present and non-empty but `"0"`. -/
def rawTagsC8 : List (Str × Option Str) :=
  [(str "bits", some (str "0")),
   (str "emotes", some []),
   (str "user-id", some (str "44")),
   (str "id", some (str "4f1f3b96-5cf3-4a7a-8db5-2b5c6e09a2bb")),
   (str "tmi-sent-ts", some (str "1700000000000"))]

/-- Concrete PRIVMSG whose `bits` tag is present and non-empty but `"0"`. -/
def msgC8 : IrcMessage :=
  { tags := some rawTagsC8
    prfx := some (.nickname (str "miyukiwei") (str "miyukiwei") (str "miyukiwei.tmi.twitch.tv"))
    command := .privmsg (str "#chan") (str "hi") }

/-- Concrete PRIVMSG with `bits=500`. -/
def msgC8bits500 : IrcMessage :=
  { tags := some
      [(str "bits", some (str "500")),
       (str "emotes", some []),
       (str "user-id", some (str "44")),
       (str "id", some (str "4f1f3b96-5cf3-4a7a-8db5-2b5c6e09a2bb")),
       (str "tmi-sent-ts", some (str "1700000000000"))]
    prfx := msgC8.prfx
    command := msgC8.command }

/-- Shape test: is the result a `Message` event? -/
def isMessageEvent : Option ChatEvent → Bool
  | some (.message ..) => true
  | _ => false

/-- Shape test: is the result a `SendBits` event? -/
def isSendBitsEvent : Option ChatEvent → Bool
  | some (.sendBits ..) => true
  | _ => false

/-- Contents of the produced event, when it is a `Message` or `SendBits`. -/
def eventSegments : ChatEvent → Option (List MessageSegment)
  | .message _ _ _ _ _ _ contents => some contents
  | .sendBits _ _ _ _ segments => some segments
  | _ => none

example : to_chat_event msgC1 = none := by decide
example : isMessageEvent (to_chat_event msgC1ascii) = true := by decide
example : (to_chat_event msgC1ascii).bind eventSegments
    = some [MessageSegment.emote (str "e") (str "25")] := by decide
example : isMessageEvent (to_chat_event msgC8) = true := by decide
example : isSendBitsEvent (to_chat_event msgC8bits500) = true := by decide
example : buildSegments (str "Kappa Kappa") (sortEmotes [(str "25", 0, 4), (str "25", 6, 10)])
    = some [MessageSegment.emote (str "Kappa") (str "25"), MessageSegment.text (str " "),
        MessageSegment.emote (str "Kappa") (str "25")] := by decide

/-! ## YouTube error type (`src/youtube/error.rs`) -/

/-- Mirror of `error.rs::Error`; payload-free where the payload is opaque. -/
inductive YError
  | invalidVideoID (s : Str)
  | invalidChannelID (s : Str)
  | noMatchingStream (s : Str)
  | missingInitialData
  | deserialization
  | missingContinuationContents
  | endOfContinuation
  | timedOut
  | badStatus (code : Nat)
  | generalRequest
  | notStream (s : Str)
  | noInnerTubeKey
  | noChatContinuation
  | urlParseError
deriving DecidableEq

/-- Mirror of `error.rs::Error::is_fatal`: everything but `TimedOut`. -/
def YError.is_fatal : YError → Bool
  | .timedOut => false
  | _ => true

/-! ## YouTube streams-page types (`src/youtube/types/streams_page.rs`) -/

/-- Mirror of `streams_page.rs::VideoTimeStatus`. -/
inductive VideoTimeStatus
  | upcoming
  | live
  | defaultStatus
deriving DecidableEq

/-- Mirror of `streams_page.rs::ThumbnailOverlay`; the fields of the
`ToggleButton` and `NowPlaying` variants are never read by the selection code
and are omitted. -/
inductive ThumbnailOverlay
  | timeStatus (style : VideoTimeStatus)
  | toggleButton
  | nowPlaying
deriving DecidableEq

/-- Mirror of `streams_page.rs::RichItemContent`; `description_snippet` and
`thumbnail` are never read by the selection code and are omitted. -/
inductive RichItemContent
  | videoRenderer (thumbnail_overlays : List ThumbnailOverlay) (video_id : Str)
deriving DecidableEq

/-- Mirror of `streams_page.rs::RichGridItem`; the continuation trigger is
never read and is omitted. -/
inductive RichGridItem
  | richItemRenderer (content : RichItemContent)
  | continuationItemRenderer
deriving DecidableEq

/-- Mirror of `streams_page.rs::FeedContentsRenderer`. -/
inductive FeedContentsRenderer
  | richGridRenderer (contents : List RichGridItem)
  | otherFeed
deriving DecidableEq

/-- Mirror of `streams_page.rs::TabItemRenderer`; the `endpoint` field is
never read by the selection code and is omitted. -/
inductive TabItemRenderer
  | tabRenderer (title : Str) (selected : Bool) (content : Option FeedContentsRenderer)
  | expandableTabRenderer
deriving DecidableEq

/-- Mirror of `streams_page.rs::PageContentsRenderer`. -/
inductive PageContentsRenderer
  | twoColumnBrowseResultsRenderer (tabs : List TabItemRenderer)
deriving DecidableEq

/-- Mirror of `streams_page.rs::YouTubeInitialData`. -/
structure YouTubeInitialData where
  contents : PageContentsRenderer
deriving DecidableEq

/-! ## YouTube context builder (`src/youtube/context.rs`) -/

/-- Mirror of `context.rs::LiveStreamStatus`. -/
inductive LiveStreamStatus
  | upcoming
  | live
  | replay
deriving DecidableEq

/-- Mirror of `context.rs::ChannelSearchOptions`. -/
inductive ChannelSearchOptions
  | latestLiveOrUpcoming
  | firstLiveOrUpcoming
  | firstLive
  | latestLive
deriving DecidableEq

/-- Line 140 of `context.rs`:
`matches!(options, FirstLive | FirstLiveOrUpcoming)`. -/
def isFirstPolicy : ChannelSearchOptions → Bool
  | .firstLive => true
  | .firstLiveOrUpcoming => true
  | _ => false

/-- Line 120 of `context.rs`:
`matches!(options, FirstLiveOrUpcoming | LatestLiveOrUpcoming)`. -/
def allowsUpcoming : ChannelSearchOptions → Bool
  | .firstLiveOrUpcoming => true
  | .latestLiveOrUpcoming => true
  | _ => false

/-- Lines 114-134 of `context.rs`: the body of the closure passed to
`thumbnail_overlays.iter().any`. Returns the updated `live_id` accumulator
and the overlay predicate result: a `Live` time-status records
`(video_id, true)` and succeeds; an `Upcoming` time-status, when the policy
permits upcoming, records `(video_id, false)` unless a live id is already
recorded, and fails; every other overlay fails. -/
def overlayStep (options : ChannelSearchOptions) (video_id : Str)
    (liveId : Option (Str × Bool)) (ov : ThumbnailOverlay) : Option (Str × Bool) × Bool :=
  match ov with
  | .timeStatus style =>
    if style = .live then (some (video_id, true), true)
    else
      if style = .upcoming ∧ allowsUpcoming options = true then
        match liveId with
        | none => (some (video_id, false), false)
        | some (_, false) => (some (video_id, false), false)
        | some (_, true) => (liveId, false)
      else (liveId, false)
  | _ => (liveId, false)

/-- Rust `Iterator::any` with the stateful closure of `overlayStep`:
short-circuits on the first `true`, threading the `live_id` accumulator. -/
def overlayAny (options : ChannelSearchOptions) (video_id : Str)
    (liveId : Option (Str × Bool)) : List ThumbnailOverlay → Option (Str × Bool) × Bool
  | [] => (liveId, false)
  | ov :: rest =>
    let (l2, b) := overlayStep options video_id liveId ov
    if b then (l2, true) else overlayAny options video_id l2 rest

/-- Lines 111-139 of `context.rs`: the `finder` closure over one grid item. -/
def finderStep (options : ChannelSearchOptions) (liveId : Option (Str × Bool))
    (item : RichGridItem) : Option (Str × Bool) × Bool :=
  match item with
  | .richItemRenderer (.videoRenderer thumbnail_overlays video_id) =>
    overlayAny options video_id liveId thumbnail_overlays
  | .continuationItemRenderer => (liveId, false)

/-- Rust `Iterator::find` with the stateful `finder` closure: scans the items
in order, threading `live_id`, and reports whether any item satisfied the
predicate. -/
def findLoop (options : ChannelSearchOptions) :
    List RichGridItem → Option (Str × Bool) → Option (Str × Bool) × Bool
  | [], liveId => (liveId, false)
  | item :: rest, liveId =>
    let (l2, b) := finderStep options liveId item
    if b then (l2, true) else findLoop options rest l2

/-- Lines 140-145 of `context.rs`: iterate the grid items reversed for the
`First…` policies and forward for the `Latest…` policies, starting from
`live_id = None`. Returns the final `live_id` and whether `find` succeeded. -/
def select (contents : List RichGridItem) (options : ChannelSearchOptions) :
    Option (Str × Bool) × Bool :=
  findLoop options (if isFirstPolicy options then contents.reverse else contents) none

/-- Lines 103-107 of `context.rs`: the tab `find` predicate — a `TabRenderer`
with contents whose title is `"Live"`. -/
def isLiveTab : TabItemRenderer → Bool
  | .tabRenderer title _ content => content.isSome ∧ title = str "Live"
  | .expandableTabRenderer => false

/-- Lines 100-153 of `context.rs`: descend the parsed initial data to the
"Live" tab's rich grid, run the policy selection, and produce the chosen
video id or `NoMatchingStream`. The `ExpandableTabRenderer` and `None`
content cases inside the match are unreachable because the tab was selected
by `isLiveTab`; the source marks them `unreachable!()`/`unwrap()`. -/
def pick_live_stream (data : YouTubeInitialData) (channel_id : Str)
    (options : ChannelSearchOptions) : Except YError Str :=
  match data.contents with
  | .twoColumnBrowseResultsRenderer tabs =>
    match tabs.find? isLiveTab with
    | none => .error (.noMatchingStream channel_id)
    | some (.tabRenderer _ _ (some (.richGridRenderer contents))) =>
      let (liveId, found) := select contents options
      if found then
        match liveId with
        | some p => .ok p.1
        | none => .error (.noMatchingStream channel_id)
      else .error (.noMatchingStream channel_id)
    | some _ => .error (.noMatchingStream channel_id)

/-- Rust `channel_id.starts_with("UC")`. -/
def startsWithUC : Str → Bool
  | 'U' :: 'C' :: _ => true
  | _ => false

/-- Rust `channel_id.starts_with('@')`. -/
def startsWithAt : Str → Bool
  | '@' :: _ => true
  | _ => false

/-- Lines 86-97 of `context.rs`: the `ytInitialData` extraction. The input is
the result of `YT_INITIAL_DATA_REGEX.captures(&page_contents)` — `none` for a
regex miss, `some g1` for a match with capture group 1 being `g1`. A regex
miss is mapped to `NoChatContinuation`; a missing group 1 (which cannot occur
for this pattern) to `MissingInitialData`. -/
def extract_initial_data (captures : Option (Option Str)) : Except YError Str :=
  match captures with
  | none => .error .noChatContinuation
  | some g1 =>
    match g1 with
    | none => .error .missingInitialData
    | some s => .ok s

/-- Model of `context.rs::ChatContext::new_from_channel`, lines 67-154, up to
the final `new_from_live` call (the selected video id is returned). External
effects are inputs: `link_parse` is `parse_channel_link`'s regex result on
the raw input, `captures` the `ytInitialData` regex result on the fetched
page, `deser` the `simd_json` deserializer for the captured JSON. -/
def new_from_channel (channel_id : Str) (link_parse : Option Str)
    (captures : Option (Option Str)) (deser : Str → Except Unit YouTubeInitialData)
    (options : ChannelSearchOptions) : Except YError Str := do
  let cid ←
    if startsWithUC channel_id = true ∨ startsWithAt channel_id = true then
      Except.ok channel_id
    else
      match link_parse with
      | some c => Except.ok c
      | none => Except.error (YError.invalidChannelID channel_id)
  let jsonStr ← extract_initial_data captures
  let data ←
    match deser jsonStr with
    | .ok d => Except.ok d
    | .error _ => Except.error YError.deserialization
  pick_live_stream data cid options

/-- Lines 170-195 of `context.rs`, the live-status classification of
`new_from_live`. The three booleans are the `is_some()` results of the
bounded regex `find` calls for `"isLiveContent": true`, `"isLiveNow": true`
and `"isReplay": true` on the fetched watch page. -/
def classify_live_status (live_id : Str) (isLiveContent isLiveNow isReplay : Bool) :
    Except YError LiveStreamStatus :=
  if isLiveContent then
    .ok
      (if isLiveNow then .live
       else if isReplay then .replay
       else .upcoming)
  else .error (.notStream live_id)

/-! ## Chat-fetch RPC (`src/youtube/types/get_live_chat.rs`) -/

/-- Outcome of a call that can succeed, return an error, or panic. -/
inductive FetchOutcome (α : Type)
  | ok (v : α)
  | err (e : YError)
  | panicked
deriving DecidableEq

/-- Model of `get_live_chat.rs::GetLiveChatResponse::fetch`, lines 67-81.
`send_result` is the transport outcome of the POST (errors already converted
through `From<reqwest::Error>`, surfaced by `?`); `deserialize` is the
`simd_json` deserialization of the response body. The source calls
`.simd_json().await.unwrap()`, so a deserialization error panics instead of
being returned. -/
def GetLiveChatResponse.fetch {α : Type} (send_result : Except YError Str)
    (deserialize : Str → Except Unit α) : FetchOutcome α :=
  match send_result with
  | .error e => .err e
  | .ok body =>
    match deserialize body with
    | .ok v => .ok v
    | .error _ => .panicked

/-! ## Signaling session state (`src/youtube/signaler.rs`) -/

/-- Minimal JSON value for the signaler's `simd_json::OwnedValue` accesses. -/
inductive JVal
  | null
  | num (n : Int)
  | jstr (s : Str)
  | arr (xs : List JVal)

/-- `simd_json` `as_array`. -/
def JVal.asArr : JVal → Option (List JVal)
  | .arr xs => some xs
  | _ => none

/-- `simd_json` `as_str`. -/
def JVal.asStr : JVal → Option Str
  | .jstr s => some s
  | _ => none

/-- `simd_json` `as_usize`: a non-negative integer. -/
def JVal.asUsize : JVal → Option Nat
  | .num n => if 0 ≤ n then some n.toNat else none
  | _ => none

/-- Mirror of `signaler.rs::SignalerChannelInner`. -/
structure SignalerChannelInner where
  topic : Str
  gsessionid : Option Str
  sid : Option Str
  rid : Nat
  aid : Nat
  session_n : Nat
deriving DecidableEq

/-- Mirror of `SignalerChannelInner::with_topic`: the given topic over the
`Default` state — the pre-handshake state. -/
def SignalerChannelInner.with_topic (topic : Str) : SignalerChannelInner :=
  { topic, gsessionid := none, sid := none, rid := 0, aid := 0, session_n := 0 }

/-- Mirror of `SignalerChannelInner::reset`, lines 40-46. -/
def SignalerChannelInner.reset (s : SignalerChannelInner) : SignalerChannelInner :=
  { s with gsessionid := none, sid := none, rid := 0, aid := 0, session_n := 0 }

/-- Model of `SignalerChannelInner::init_session`, lines 68-103. The request
URL uses `self.gsessionid.as_ref().unwrap()` (panic when absent, modelled as
`none`); `session_n` is set to 1 before the request; `ofs_res_line` is the
already-extracted and JSON-parsed second line of the response body. The
`unwrap`s on the array/string accesses and the `assert_eq!` on the status
integer are modelled as `none`; on success `sid` is stored. -/
def SignalerChannelInner.init_session (s : SignalerChannelInner) (ofs_res_line : JVal) :
    Option SignalerChannelInner :=
  match s.gsessionid with
  | none => none
  | some _ =>
    match ofs_res_line.asArr with
    | none => none
    | some outer =>
      match outer.head? with
      | none => none
      | some first =>
        match first.asArr with
        | none => none
        | some value =>
          match value.head?.bind JVal.asUsize with
          | none => none
          | some code =>
            if code = 0 then
              match (value[1]?.bind JVal.asArr).bind fun v1a => v1a[1]?.bind JVal.asStr with
              | none => none
              | some sid => some { s with session_n := 1, sid := some sid }
            else none

/-! ## Multi-source fan-in (`src/multicast.rs`) -/

/-- One sub-stream's `poll_next` answer:
`Ready(Some(item))`, `Ready(None)`, or `Pending`. -/
inductive StreamPoll (α : Type)
  | readySome (a : α)
  | readyNone
  | pending
deriving DecidableEq

/-- Lines 105-112 of `multicast.rs`: the in-order pass with accumulator
`res`, which starts as `Ready(None)`, becomes `Pending` when a pending
sub-stream is seen, and is returned when no sub-stream is ready with an
item. -/
def multicastLoop {α : Type} : List (StreamPoll α) → StreamPoll α → StreamPoll α
  | [], res => res
  | p :: rest, res =>
    match p with
    | .readySome a => .readySome a
    | .readyNone => multicastLoop rest res
    | .pending => multicastLoop rest .pending

/-- Model of `Multicast::poll_next`, lines 102-114: the answers the
sub-streams would give on this wake are scanned once, in order. -/
def Multicast.poll_next {α : Type} (polls : List (StreamPoll α)) : StreamPoll α :=
  multicastLoop polls .readyNone

/-! ## Spec-side describers used to state the claims -/

/-- Overlay carries a `Live` time status. -/
def overlayIsLive : ThumbnailOverlay → Bool
  | .timeStatus .live => true
  | _ => false

/-- Overlay carries an `Upcoming` time status. -/
def overlayIsUpcoming : ThumbnailOverlay → Bool
  | .timeStatus .upcoming => true
  | _ => false

/-- Grid item is a video with a `Live` overlay. -/
def itemHasLive : RichGridItem → Bool
  | .richItemRenderer (.videoRenderer ovs _) => ovs.any overlayIsLive
  | .continuationItemRenderer => false

/-- Grid item is a video with an `Upcoming` overlay. -/
def itemHasUpcoming : RichGridItem → Bool
  | .richItemRenderer (.videoRenderer ovs _) => ovs.any overlayIsUpcoming
  | .continuationItemRenderer => false

/-- Video id of a grid item, when it is a video. -/
def itemVideoId : RichGridItem → Option Str
  | .richItemRenderer (.videoRenderer _ vid) => some vid
  | .continuationItemRenderer => none

/-- Video id of the first item (in the given order) with a `Live` overlay. -/
def firstLiveId (items : List RichGridItem) : Option Str :=
  items.findSome? fun it => if itemHasLive it then itemVideoId it else none

/-- Video id of the last item (in the given order) with an `Upcoming`
overlay. -/
def lastUpcomingId : List RichGridItem → Option Str
  | [] => none
  | it :: rest =>
    match lastUpcomingId rest with
    | some v => some v
    | none => if itemHasUpcoming it then itemVideoId it else none

/-- Claim C2's wording of the iteration direction: items are scanned
*forward* for the `First…` policies and *in reverse* for the `Latest…`
policies (the source does the opposite). -/
def selectClaimDirection (contents : List RichGridItem) (options : ChannelSearchOptions) :
    Option (Str × Bool) × Bool :=
  findLoop options (if isFirstPolicy options then contents else contents.reverse) none

/-- First sub-stream answer that is ready with an item. -/
def firstReadySome {α : Type} (polls : List (StreamPoll α)) : Option α :=
  polls.findSome? fun p =>
    match p with
    | .readySome a => some a
    | _ => none

/-- Sub-stream answer is `Pending`. -/
def isPendingPoll {α : Type} : StreamPoll α → Bool
  | .pending => true
  | _ => false

/-- Sub-stream answer is `Ready(None)` — the sub-stream reports terminated. -/
def isTerminatedPoll {α : Type} : StreamPoll α → Bool
  | .readyNone => true
  | _ => false

/-- A live grid item named by a one-character id. -/
def liveItem (vid : String) : RichGridItem :=
  .richItemRenderer (.videoRenderer [.timeStatus .live] (str vid))

/-- An upcoming grid item named by a one-character id. -/
def upcomingItem (vid : String) : RichGridItem :=
  .richItemRenderer (.videoRenderer [.timeStatus .upcoming] (str vid))

example : select [liveItem "A", liveItem "B"] .firstLive = (some (str "B", true), true) := by decide
example : selectClaimDirection [liveItem "A", liveItem "B"] .firstLive
    = (some (str "A", true), true) := by decide
example : select [upcomingItem "U1", upcomingItem "U2"] .latestLiveOrUpcoming
    = (some (str "U2", false), false) := by decide
example : pick_live_stream ⟨.twoColumnBrowseResultsRenderer
      [.tabRenderer (str "Live") false (some (.richGridRenderer [upcomingItem "U1"]))]⟩
      (str "UCx") .latestLiveOrUpcoming = .error (.noMatchingStream (str "UCx")) := rfl

example : parseDigits (str "1700000000000") = some 1700000000000 := by decide

/-! ## Claim theorems -/

/-- C1: for the PRIVMSG body `"é"` with the well-formed `emotes` tag
`25:0-0` (a valid, in-bounds, non-overlapping inclusive code-point range),
`to_chat_event` produces no segmentation at all — the message is dropped —
because the trailing-text check compares the code-point cursor against the
byte length of the body. The same message with the ASCII body `"e"` yields
the expected single-emote segmentation, so every other field is well-formed. -/
theorem c1_tail_slice_uses_byte_length :
    parseEmotesTag (str "25:0-0") = some [(str "25", 0, 0)] ∧
    buildSegments (str "é") [(str "25", 0, 0)] = none ∧
    to_chat_event msgC1 = none ∧
    (to_chat_event msgC1ascii).bind eventSegments
      = some [MessageSegment.emote (str "e") (str "25")] := by
  decide

/-- C3: when the bounded `ytInitialData` regex does not match the fetched
channel page (`captures = none`), `new_from_channel` returns
`NoChatContinuation`, not `MissingInitialData`; `MissingInitialData` is
reserved for the impossible case of a match without capture group 1. The
`InvalidChannelID` path for an input matching none of the accepted forms is
as claimed. -/
theorem c3_initial_data_regex_miss_misreported :
    new_from_channel (str "UCtest") none none (fun _ => .error ()) .firstLiveOrUpcoming
      = .error YError.noChatContinuation ∧
    YError.noChatContinuation ≠ YError.missingInitialData ∧
    extract_initial_data none = .error YError.noChatContinuation ∧
    extract_initial_data (some none) = .error YError.missingInitialData ∧
    new_from_channel (str "nonsense") none none (fun _ => .error ()) .firstLiveOrUpcoming
      = .error (YError.invalidChannelID (str "nonsense")) := by
  refine ⟨rfl, by decide, rfl, rfl, rfl⟩

/-- C4: `new_from_live`'s status classification — when the watch page
matches `"isLiveContent": true`, the status is Live when it matches
`"isLiveNow": true`, else Replay when it matches `"isReplay": true`, else
Upcoming; when it does not match `"isLiveContent": true`, the result is the
`NotStream` error. -/
theorem c4_live_status_classification :
    ∀ (live_id : Str) (isLiveNow isReplay : Bool),
      classify_live_status live_id true true isReplay = .ok .live ∧
      classify_live_status live_id true false true = .ok .replay ∧
      classify_live_status live_id true false false = .ok .upcoming ∧
      classify_live_status live_id false isLiveNow isReplay = .error (.notStream live_id) :=
  fun _ _ _ => ⟨rfl, rfl, rfl, rfl⟩

/-- C5: the user role is classified with strict priority `user-type` over
`mod` over `broadcaster` badge over `Normal`: `user-type` of
`admin`/`global_mod`/`staff` yields `TwitchAdmin`/`GlobalModerator`/
`TwitchStaff`; otherwise `mod=1` yields `Moderator`; otherwise a
`broadcaster` key among the parsed badges yields `Broadcaster`; otherwise
`Normal`. -/
theorem c5_role_priority (tags badges : List (Str × Str)) :
    (tagGet tags (str "user-type") = some (str "admin") →
        classifyRole tags badges = .twitchAdmin) ∧
    (tagGet tags (str "user-type") = some (str "global_mod") →
        classifyRole tags badges = .globalModerator) ∧
    (tagGet tags (str "user-type") = some (str "staff") →
        classifyRole tags badges = .twitchStaff) ∧
    (tagGet tags (str "user-type") ≠ some (str "admin") →
     tagGet tags (str "user-type") ≠ some (str "global_mod") →
     tagGet tags (str "user-type") ≠ some (str "staff") →
      (tagGet tags (str "mod") = some (str "1") →
          classifyRole tags badges = .moderator) ∧
      (tagGet tags (str "mod") ≠ some (str "1") →
        ((tagGet badges (str "broadcaster")).isSome = true →
            classifyRole tags badges = .broadcaster) ∧
        ((tagGet badges (str "broadcaster")).isSome = false →
            classifyRole tags badges = .normal))) := by
  refine ⟨?_, ?_, ?_, ?_⟩
  · intro h
    unfold classifyRole
    rw [if_pos h]
  · intro h
    unfold classifyRole
    rw [if_neg (by rw [h]; decide), if_pos h]
  · intro h
    unfold classifyRole
    rw [if_neg (by rw [h]; decide), if_neg (by rw [h]; decide), if_pos h]
  · intro h1 h2 h3
    refine ⟨?_, ?_⟩
    · intro hm
      unfold classifyRole
      rw [if_neg h1, if_neg h2, if_neg h3, if_pos hm]
    · intro hm
      refine ⟨?_, ?_⟩
      · intro hb
        unfold classifyRole
        rw [if_neg h1, if_neg h2, if_neg h3, if_neg hm, if_pos hb]
      · intro hb
        unfold classifyRole
        rw [if_neg h1, if_neg h2, if_neg h3, if_neg hm, if_neg (by simp [hb])]

/-- Witness for C5 at concrete tag maps exercising the priority chain. -/
theorem c5_role_priority_witness :
    classifyRole [(str "user-type", str "admin"), (str "mod", str "1")] []
      = UserRole.twitchAdmin ∧
    classifyRole [(str "mod", str "1")] [(str "broadcaster", str "1")]
      = UserRole.moderator ∧
    classifyRole [] [(str "broadcaster", str "1")] = UserRole.broadcaster ∧
    classifyRole [] [] = UserRole.normal :=
  ⟨(c5_role_priority [(str "user-type", str "admin"), (str "mod", str "1")] []).1 (by decide),
   ((c5_role_priority [(str "mod", str "1")] [(str "broadcaster", str "1")]).2.2.2
      (by decide) (by decide) (by decide)).1 (by decide),
   (((c5_role_priority [] [(str "broadcaster", str "1")]).2.2.2
      (by decide) (by decide) (by decide)).2 (by decide)).1 (by decide),
   (((c5_role_priority [] []).2.2.2
      (by decide) (by decide) (by decide)).2 (by decide)).2 (by decide)⟩

/-- C7: `GetLiveChatResponse::fetch` does not surface a deserialization
failure of the response body as an error result — the `unwrap` panics — and
`TimedOut` is the only non-fatal (transient) error kind. -/
theorem c7_fetch_deserialization_panics :
    GetLiveChatResponse.fetch (α := Unit) (.ok (str "not json")) (fun _ => .error ())
      = .panicked ∧
    (∀ e : YError, e.is_fatal = false ↔ e = .timedOut) := by
  refine ⟨rfl, fun e => ?_⟩
  cases e <;> simp [YError.is_fatal]

/-- Witness for C7 applied at the `TimedOut` error. -/
theorem c7_fetch_deserialization_panics_witness :
    YError.is_fatal .timedOut = false :=
  (c7_fetch_deserialization_panics.2 YError.timedOut).mpr rfl

/-- C8 counterexample: the PRIVMSG `msgC8` has a present, non-empty `bits`
tag (`"0"`), yet `to_chat_event` produces a `Message` event, not `SendBits`;
with `bits=500` it produces `SendBits`. -/
theorem c8_nonempty_bits_zero_yields_message :
    tagGet (filterTags rawTagsC8) (str "bits") = some (str "0") ∧
    str "0" ≠ [] ∧
    isMessageEvent (to_chat_event msgC8) = true ∧
    isSendBitsEvent (to_chat_event msgC8) = false ∧
    isSendBitsEvent (to_chat_event msgC8bits500) = true := by
  decide

/-- Success characterization of `and_then_nonempty`. -/
lemma andThenNonempty_eq_some {β : Type} (o : Option Str) (f : Str → Option β) (y : β) :
    andThenNonempty o f = some y ↔ ∃ s, o = some s ∧ s ≠ [] ∧ f s = some y := by
  cases o with
  | none => simp [andThenNonempty]
  | some s =>
    by_cases h : s = [] <;> simp [andThenNonempty, h]

/-- A sample user record for witness statements. -/
def userW : User :=
  { username := [], displayName := [], id := 0, displayColor := none,
    subMonths := none, role := .normal, returningChatter := false }

/-- C8 amended: `to_chat_event`'s final dispatch yields `SendBits v` exactly
when the `bits` tag is present, non-empty and parses as the nonzero 32-bit
value `v`; in every other case (absent, empty, zero, or unparseable) it
yields a `Message` event. -/
theorem c8_amended_bits_dispatch (tags : List (Str × Str)) (id : Str) (user : User)
    (sentAt : Int) (segments : List MessageSegment) :
    (∀ v, finishEvent tags id user sentAt segments
        = ChatEvent.sendBits id user v sentAt segments ↔
      ∃ s, tagGet tags (str "bits") = some s ∧ s ≠ [] ∧ parseNonZeroU32 s = some v) ∧
    ((∀ s, tagGet tags (str "bits") = some s → s = [] ∨ parseNonZeroU32 s = none) →
      finishEvent tags id user sentAt segments
        = ChatEvent.message id user sentAt
            ((tagGet tags (str "reply-parent-msg-id")).bind uuidParse)
            (tagGet tags (str "emote-only") = some (str "1"))
            (tagGet tags (str "first-msg") = some (str "1"))
            segments) := by
  constructor
  · intro v
    rw [← andThenNonempty_eq_some]
    unfold finishEvent
    cases h : andThenNonempty (tagGet tags (str "bits")) parseNonZeroU32 with
    | none => simp
    | some b => simp [eq_comm]
  · intro h
    unfold finishEvent
    have hnone : andThenNonempty (tagGet tags (str "bits")) parseNonZeroU32 = none := by
      cases ht : tagGet tags (str "bits") with
      | none => simp [andThenNonempty, ht]
      | some s =>
        rcases h s ht with he | hp
        · simp [andThenNonempty, ht, he]
        · simp [andThenNonempty, ht, hp]
    rw [hnone]

/-- Witness for C8's amended claim at `bits=500` and at an absent tag. -/
theorem c8_amended_bits_dispatch_witness :
    finishEvent [(str "bits", str "500")] (str "x") userW 0 []
      = ChatEvent.sendBits (str "x") userW 500 0 [] ∧
    finishEvent [] (str "x") userW 0 []
      = ChatEvent.message (str "x") userW 0 none false false [] :=
  ⟨((c8_amended_bits_dispatch [(str "bits", str "500")] (str "x") userW 0 []).1 500).mpr
      ⟨str "500", by decide, by decide, by decide⟩,
   (c8_amended_bits_dispatch [] (str "x") userW 0 []).2 (by intro s hs; cases hs)⟩

/-- Any event assembled by the final dispatch carries exactly the computed
segment list. -/
lemma eventSegments_finishEvent (tags : List (Str × Str)) (id : Str) (user : User)
    (sentAt : Int) (segments : List MessageSegment) :
    eventSegments (finishEvent tags id user sentAt segments) = some segments := by
  unfold finishEvent
  cases andThenNonempty (tagGet tags (str "bits")) parseNonZeroU32 <;> rfl

/-- When the filtered tag map has no `emotes` key, the PRIVMSG arm yields
no event. -/
lemma privmsgEvent_no_emotes (tags : List (Str × Str)) (source : Option IrcSource)
    (msg : Str) (h : tagGet tags (str "emotes") = none) :
    privmsgEvent tags source msg = none := by
  cases source with
  | none => rfl
  | some src =>
    cases src with
    | nickname n1 n2 n3 => simp [privmsgEvent, h]
    | serverName s => rfl

/-- When the filtered tag map's `emotes` value is the empty string, any event
the PRIVMSG arm yields carries the single whole-body `Text` segment. -/
lemma privmsgEvent_empty_emotes (tags : List (Str × Str)) (source : Option IrcSource)
    (msg : Str) (e : ChatEvent) (h : tagGet tags (str "emotes") = some [])
    (he : privmsgEvent tags source msg = some e) :
    eventSegments e = some [MessageSegment.text msg] := by
  unfold privmsgEvent at he
  simp only [Option.bind_eq_some'] at he
  obtain ⟨src, hsrc, names, hnames, es, hes, emotes, hem, segs, hsegs, userId, hu,
    id, hi, secs, hsecs, sentAt, hsent, he⟩ := he
  rw [h] at hes
  obtain rfl : es = [] := (Option.some.inj hes).symm
  rw [show parseEmotesTag ([] : Str) = some [] from rfl] at hem
  obtain rfl : emotes = [] := (Option.some.inj hem).symm
  rw [show buildSegments msg (sortEmotes []) = some [MessageSegment.text msg] from rfl] at hsegs
  obtain rfl : segs = [MessageSegment.text msg] := (Option.some.inj hsegs).symm
  obtain rfl := Option.some.inj he
  exact eventSegments_finishEvent ..

/-- C10: a PRIVMSG with no tag list at all, or whose (value-bearing) tags
contain no `emotes` key, is silently dropped by `to_chat_event`; a
present-but-empty `emotes` tag instead produces the single whole-body `Text`
segment in whatever event is emitted. -/
theorem c10_emotes_tag_gatekeeping :
    (∀ (m : IrcMessage) (target body : Str),
      m.command = .privmsg target body → m.tags = none → to_chat_event m = none) ∧
    (∀ (m : IrcMessage) (target body : Str) (raw : List (Str × Option Str)),
      m.command = .privmsg target body → m.tags = some raw →
      tagGet (filterTags raw) (str "emotes") = none → to_chat_event m = none) ∧
    (∀ (m : IrcMessage) (target body : Str) (raw : List (Str × Option Str)) (e : ChatEvent),
      m.command = .privmsg target body → m.tags = some raw →
      tagGet (filterTags raw) (str "emotes") = some [] →
      to_chat_event m = some e → eventSegments e = some [MessageSegment.text body]) := by
  refine ⟨?_, ?_, ?_⟩
  · rintro ⟨tags, prfx, cmd⟩ target body hc ht
    subst hc; subst ht; rfl
  · rintro ⟨tags, prfx, cmd⟩ target body raw hc ht h
    subst hc; subst ht
    simpa [to_chat_event] using privmsgEvent_no_emotes (filterTags raw) prfx body h
  · rintro ⟨tags, prfx, cmd⟩ target body raw e hc ht h he
    subst hc; subst ht
    simp only [to_chat_event, Option.some_bind] at he
    exact privmsgEvent_empty_emotes (filterTags raw) prfx body e h he

/-- The user record `to_chat_event` derives from `rawTagsC8`. -/
def userC8 : User :=
  { username := str "miyukiwei", displayName := str "miyukiwei", id := 44,
    displayColor := none, subMonths := none, role := .normal, returningChatter := false }

/-- The event `to_chat_event` produces for `msgC8`. -/
def eventC8 : ChatEvent :=
  ChatEvent.message (str "4f1f3b96-5cf3-4a7a-8db5-2b5c6e09a2bb") userC8 1700000000
    none false false [MessageSegment.text (str "hi")]

/-- A PRIVMSG with no tag list. -/
def msgNoTags : IrcMessage :=
  { tags := none
    prfx := msgC8.prfx
    command := .privmsg (str "#chan") (str "hi") }

/-- A PRIVMSG with tags but no `emotes` key. -/
def msgNoEmotesKey : IrcMessage :=
  { tags := some [(str "user-id", some (str "44"))]
    prfx := msgC8.prfx
    command := .privmsg (str "#chan") (str "hi") }

/-- Witness for C10 at concrete messages: one with no tags, one with tags
but no `emotes` key, and one with an empty `emotes` tag. -/
theorem c10_emotes_tag_gatekeeping_witness :
    to_chat_event msgNoTags = none ∧
    to_chat_event msgNoEmotesKey = none ∧
    eventSegments eventC8 = some [MessageSegment.text (str "hi")] :=
  ⟨c10_emotes_tag_gatekeeping.1 msgNoTags (str "#chan") (str "hi") rfl rfl,
   c10_emotes_tag_gatekeeping.2.1 msgNoEmotesKey (str "#chan") (str "hi")
     [(str "user-id", some (str "44"))] rfl rfl (by decide),
   c10_emotes_tag_gatekeeping.2.2 msgC8 (str "#chan") (str "hi") rawTagsC8 eventC8 rfl rfl
     (by decide) (by decide)⟩

/-- C6: when `init_session` returns successfully, both `gsessionid` and
`sid` are set (and the topic is untouched); after `reset()`, `gsessionid`
and `sid` are absent, `rid`, `aid` and `session_n` are all 0, and the state
equals the pre-handshake state `with_topic topic`. -/
theorem c6_signaler_session_state :
    (∀ (s : SignalerChannelInner) (resp : JVal) (s2 : SignalerChannelInner),
      s.init_session resp = some s2 →
      s2.gsessionid.isSome = true ∧ s2.sid.isSome = true ∧ s2.topic = s.topic) ∧
    (∀ s : SignalerChannelInner,
      s.reset = SignalerChannelInner.with_topic s.topic ∧
      s.reset.gsessionid = none ∧ s.reset.sid = none ∧
      s.reset.rid = 0 ∧ s.reset.aid = 0 ∧ s.reset.session_n = 0 ∧
      s.reset.topic = s.topic) := by
  constructor
  · intro s resp s2 h
    unfold SignalerChannelInner.init_session at h
    repeat' split at h
    all_goals cases h
    exact ⟨by simp [*], rfl, rfl⟩
  · intro s
    exact ⟨rfl, rfl, rfl, rfl, rfl, rfl, rfl⟩

/-- A signaler state that has completed `choose_server`. -/
def sigStateC6 : SignalerChannelInner :=
  { topic := str "topic", gsessionid := some (str "gsess"), sid := none,
    rid := 0, aid := 0, session_n := 0 }

/-- The parsed second response line `[[0, ["c", "SID_X"]]]` of S6. -/
def sigRespC6 : JVal :=
  .arr [.arr [.num 0, .arr [.jstr (str "c"), .jstr (str "SID_X")]]]

/-- The state after a successful `init_session` on `sigStateC6`. -/
def sigStateC6res : SignalerChannelInner :=
  { topic := str "topic", gsessionid := some (str "gsess"), sid := some (str "SID_X"),
    rid := 0, aid := 0, session_n := 1 }

/-- Witness for C6: a concrete successful handshake. -/
theorem c6_signaler_session_state_witness :
    sigStateC6res.gsessionid.isSome = true ∧ sigStateC6res.sid.isSome = true ∧
    sigStateC6res.topic = sigStateC6.topic :=
  c6_signaler_session_state.1 sigStateC6 sigRespC6 sigStateC6res rfl

/-- Characterization of the multicast scan loop for either accumulator
value: the first ready sub-stream wins; otherwise a pending sub-stream turns
the result `Pending`; otherwise the accumulator is returned. -/
lemma multicastLoop_spec {α : Type} (polls : List (StreamPoll α)) (res : StreamPoll α) :
    multicastLoop polls res =
      match firstReadySome polls with
      | some a => .readySome a
      | none => if polls.any isPendingPoll then .pending else res := by
  induction polls generalizing res with
  | nil => simp [multicastLoop, firstReadySome]
  | cons p rest ih =>
    cases p with
    | readySome a => simp [multicastLoop, firstReadySome, isPendingPoll]
    | readyNone => simp [multicastLoop, firstReadySome, isPendingPoll, ih]
    | pending =>
      simp only [multicastLoop, firstReadySome, List.findSome?_cons, List.any_cons,
        isPendingPoll, Bool.true_or, if_true, ih]
      cases firstReadySome rest <;> simp [firstReadySome]

/-- No pending and no ready-with-item answers is the same as every
sub-stream reporting terminated. -/
lemma allTerminated_iff {α : Type} (polls : List (StreamPoll α)) :
    (firstReadySome polls = none ∧ polls.any isPendingPoll = false) ↔
      polls.all isTerminatedPoll = true := by
  induction polls with
  | nil => simp [firstReadySome]
  | cons p rest ih =>
    cases p with
    | readySome a =>
      simp only [firstReadySome, List.findSome?_cons, List.all_cons, isTerminatedPoll,
        Bool.false_and]
      simp
    | readyNone =>
      simpa only [firstReadySome, List.findSome?_cons, List.any_cons, List.all_cons,
        isPendingPoll, isTerminatedPoll, Bool.false_or, Bool.true_and] using ih
    | pending =>
      simp only [firstReadySome, List.findSome?_cons, List.any_cons, List.all_cons,
        isPendingPoll, isTerminatedPoll, Bool.true_or, Bool.false_and]
      simp

/-- C9: one call to `Multicast::poll_next` makes a single in-order pass and
returns the first ready item when some sub-stream is ready with an item, is
`Pending` when no sub-stream yields an item but at least one is pending, and
reports termination (`Ready(None)`) exactly when every sub-stream reports
terminated. -/
theorem c9_multicast_poll_pass {α : Type} (polls : List (StreamPoll α)) :
    (∀ a : α, Multicast.poll_next polls = .readySome a ↔ firstReadySome polls = some a) ∧
    (Multicast.poll_next polls = .pending ↔
      firstReadySome polls = none ∧ polls.any isPendingPoll = true) ∧
    (Multicast.poll_next polls = .readyNone ↔ polls.all isTerminatedPoll = true) := by
  unfold Multicast.poll_next
  rw [multicastLoop_spec]
  refine ⟨fun a => ?_, ?_, ?_⟩
  · cases h : firstReadySome polls with
    | none => cases hp : polls.any isPendingPoll <;> simp
    | some b => simp [eq_comm]
  · cases h : firstReadySome polls with
    | none => cases hp : polls.any isPendingPoll <;> simp [hp]
    | some b => simp [h]
  · rw [← allTerminated_iff]
    cases h : firstReadySome polls with
    | none => cases hp : polls.any isPendingPoll <;> simp [hp]
    | some b => simp [h]

/-- Witness for C9 at a concrete sub-stream list: one terminated stream
followed by one ready with item 5. -/
theorem c9_multicast_poll_pass_witness :
    Multicast.poll_next [StreamPoll.readyNone, StreamPoll.readySome 5] = .readySome 5 :=
  ((c9_multicast_poll_pass [StreamPoll.readyNone, StreamPoll.readySome 5]).1 5).mpr (by decide)

/-- The `live_id` accumulator does not yet hold a live candidate (the
invariant maintained while the item scan is still running). -/
def accNotLive : Option (Str × Bool) → Bool
  | some (_, true) => false
  | _ => true

/-- An overlay list containing a `Live` time status makes the stateful `any`
succeed with the current video recorded as live, whatever the accumulator. -/
lemma overlayAny_live (options : ChannelSearchOptions) (vid : Str)
    (ovs : List ThumbnailOverlay) (l : Option (Str × Bool))
    (h : ovs.any overlayIsLive = true) :
    overlayAny options vid l ovs = (some (vid, true), true) := by
  induction ovs generalizing l with
  | nil => simp at h
  | cons ov rest ih =>
    cases ov with
    | timeStatus style =>
      cases style with
      | live => rfl
      | upcoming =>
        have hr : rest.any overlayIsLive = true := by
          simpa [overlayIsLive] using h
        by_cases ha : allowsUpcoming options = true
        · cases l with
          | none => simpa [overlayAny, overlayStep, ha] using ih _ hr
          | some p =>
            obtain ⟨x, b⟩ := p
            cases b <;> simpa [overlayAny, overlayStep, ha] using ih _ hr
        · simpa [overlayAny, overlayStep, ha] using ih _ hr
      | defaultStatus =>
        have hr : rest.any overlayIsLive = true := by
          simpa [overlayIsLive] using h
        simpa [overlayAny, overlayStep] using ih _ hr
    | toggleButton =>
      have hr : rest.any overlayIsLive = true := by
        simpa [overlayIsLive] using h
      simpa [overlayAny, overlayStep] using ih _ hr
    | nowPlaying =>
      have hr : rest.any overlayIsLive = true := by
        simpa [overlayIsLive] using h
      simpa [overlayAny, overlayStep] using ih _ hr

/-- An overlay list with no `Live` time status leaves the predicate false;
the accumulator is overwritten with the current video as an upcoming
candidate exactly when the policy permits upcoming and some overlay is an
`Upcoming` time status. -/
lemma overlayAny_no_live (options : ChannelSearchOptions) (vid : Str)
    (ovs : List ThumbnailOverlay) (l : Option (Str × Bool))
    (h : ovs.any overlayIsLive = false) (hl : accNotLive l = true) :
    overlayAny options vid l ovs =
      (if allowsUpcoming options && ovs.any overlayIsUpcoming then some (vid, false) else l,
        false) := by
  induction ovs generalizing l with
  | nil => simp [overlayAny]
  | cons ov rest ih =>
    cases ov with
    | timeStatus style =>
      cases style with
      | live => simp [overlayIsLive] at h
      | upcoming =>
        have hr : rest.any overlayIsLive = false := by
          simpa [overlayIsLive] using h
        by_cases ha : allowsUpcoming options = true
        · cases l with
          | none =>
            rw [show overlayAny options vid none (.timeStatus .upcoming :: rest)
                = overlayAny options vid (some (vid, false)) rest by
              simp [overlayAny, overlayStep, ha]]
            rw [ih (some (vid, false)) hr rfl]
            simp [overlayIsUpcoming, ha]
          | some p =>
            obtain ⟨x, b⟩ := p
            cases b with
            | false =>
              rw [show overlayAny options vid (some (x, false)) (.timeStatus .upcoming :: rest)
                  = overlayAny options vid (some (vid, false)) rest by
                simp [overlayAny, overlayStep, ha]]
              rw [ih (some (vid, false)) hr rfl]
              simp [overlayIsUpcoming, ha]
            | true => simp [accNotLive] at hl
        · rw [show overlayAny options vid l (.timeStatus .upcoming :: rest)
              = overlayAny options vid l rest by
            simp [overlayAny, overlayStep, ha]]
          rw [ih _ hr hl]
          simp [ha]
      | defaultStatus =>
        have hr : rest.any overlayIsLive = false := by
          simpa [overlayIsLive] using h
        rw [show overlayAny options vid l (.timeStatus .defaultStatus :: rest)
            = overlayAny options vid l rest from rfl]
        rw [ih _ hr hl]
        simp [overlayIsUpcoming]
    | toggleButton =>
      have hr : rest.any overlayIsLive = false := by
        simpa [overlayIsLive] using h
      rw [show overlayAny options vid l (.toggleButton :: rest)
          = overlayAny options vid l rest from rfl]
      rw [ih _ hr hl]
      simp [overlayIsUpcoming]
    | nowPlaying =>
      have hr : rest.any overlayIsLive = false := by
        simpa [overlayIsLive] using h
      rw [show overlayAny options vid l (.nowPlaying :: rest)
          = overlayAny options vid l rest from rfl]
      rw [ih _ hr hl]
      simp [overlayIsUpcoming]

/-- Characterization of the item scan from any not-yet-live accumulator:
the first live item (in scan order) wins and stops the scan; otherwise the
scan fails, leaving as candidate the last upcoming item when the policy
permits upcoming, and the initial accumulator when none exists. -/
lemma findLoop_spec (options : ChannelSearchOptions) (items : List RichGridItem)
    (l : Option (Str × Bool)) (hl : accNotLive l = true) :
    findLoop options items l =
      (match firstLiveId items with
      | some v => (some (v, true), true)
      | none =>
        (if allowsUpcoming options = true then
          match lastUpcomingId items with
          | some v => some (v, false)
          | none => l
         else l, false)) := by
  induction items generalizing l with
  | nil => simp [findLoop, firstLiveId, lastUpcomingId]
  | cons it rest ih =>
    cases it with
    | continuationItemRenderer =>
      have h1 : firstLiveId (RichGridItem.continuationItemRenderer :: rest)
          = firstLiveId rest := rfl
      have h2 : lastUpcomingId (RichGridItem.continuationItemRenderer :: rest)
          = lastUpcomingId rest := by
        cases hr : lastUpcomingId rest <;> simp [lastUpcomingId, hr, itemHasUpcoming]
      rw [show findLoop options (RichGridItem.continuationItemRenderer :: rest) l
          = findLoop options rest l from rfl]
      rw [ih l hl, h1, h2]
    | richItemRenderer content =>
      cases content with
      | videoRenderer ovs vid =>
        cases hlv : ovs.any overlayIsLive with
        | true =>
          have hstep := overlayAny_live options vid ovs l hlv
          simp only [findLoop, finderStep, hstep]
          simp [firstLiveId, List.findSome?_cons, itemHasLive, hlv, itemVideoId]
        | false =>
          have hstep := overlayAny_no_live options vid ovs l hlv hl
          simp only [findLoop, finderStep, hstep]
          have hl2 : accNotLive
              (if allowsUpcoming options && ovs.any overlayIsUpcoming
                then some (vid, false) else l) = true := by
            split
            · rfl
            · exact hl
          rw [ih _ hl2]
          have h1 : firstLiveId (RichGridItem.richItemRenderer
              (.videoRenderer ovs vid) :: rest) = firstLiveId rest := by
            simp [firstLiveId, List.findSome?_cons, itemHasLive, hlv]
          rw [h1]
          cases hfl : firstLiveId rest with
          | some v => simp
          | none =>
            simp only
            by_cases ha : allowsUpcoming options = true
            · cases hup : ovs.any overlayIsUpcoming with
              | true =>
                cases hlast : lastUpcomingId rest <;>
                  simp [lastUpcomingId, hlast, itemHasUpcoming, hup, itemVideoId, ha]
              | false =>
                cases hlast : lastUpcomingId rest <;>
                  simp [lastUpcomingId, hlast, itemHasUpcoming, hup, ha]
            · simp [ha]

/-- C2 counterexample. With two live items `[A, B]`, policy `FirstLive`
selects `B` (the items are iterated in reverse for `First…`), while the
claim's stated direction (forward for `First…`) would select `A`; and with
two upcoming items under `LatestLiveOrUpcoming`, the scan records the
*last* encountered (`U2`), not the first, yet the channel lookup still fails
with `NoMatchingStream` because upcoming candidates are only returned when a
live item is found. -/
theorem c2_iteration_direction_counterexample :
    select [liveItem "A", liveItem "B"] .firstLive = (some (str "B", true), true) ∧
    selectClaimDirection [liveItem "A", liveItem "B"] .firstLive
      = (some (str "A", true), true) ∧
    select [liveItem "A", liveItem "B"] .firstLive
      ≠ selectClaimDirection [liveItem "A", liveItem "B"] .firstLive ∧
    select [upcomingItem "U1", upcomingItem "U2"] .latestLiveOrUpcoming
      = (some (str "U2", false), false) ∧
    pick_live_stream ⟨.twoColumnBrowseResultsRenderer [.tabRenderer (str "Live") false
        (some (.richGridRenderer [upcomingItem "U1", upcomingItem "U2"]))]⟩
      (str "UCx") .latestLiveOrUpcoming = .error (.noMatchingStream (str "UCx")) := by
  refine ⟨by decide, by decide, by decide, by decide, rfl⟩

/-- C2 amended: in `new_from_channel`'s selection, items are iterated in
*reverse* for `FirstLive`/`FirstLiveOrUpcoming` and *forward* for
`LatestLive`/`LatestLiveOrUpcoming`; an item whose time-status overlay is
Live always wins and stops the scan, the first such item in iteration order
being selected; Upcoming items are recorded as a fallback candidate only
under the `…OrUpcoming` policies, the *last* one encountered overwriting
earlier ones; and the scan reports success only when a Live item is found —
when no item has a Live overlay the function fails with `NoMatchingStream`
even if an Upcoming candidate was recorded. -/
theorem c2_amended_selection (contents : List RichGridItem)
    (options : ChannelSearchOptions) :
    (∀ v, firstLiveId (if isFirstPolicy options then contents.reverse else contents)
        = some v →
      select contents options = (some (v, true), true)) ∧
    (firstLiveId (if isFirstPolicy options then contents.reverse else contents) = none →
      allowsUpcoming options = true →
      select contents options
        = ((lastUpcomingId (if isFirstPolicy options then contents.reverse else contents)).map
            (fun v => (v, false)), false)) ∧
    (firstLiveId (if isFirstPolicy options then contents.reverse else contents) = none →
      allowsUpcoming options = false →
      select contents options = (none, false)) ∧
    (∀ channel_id : Str, (select contents options).2 = false →
      pick_live_stream ⟨.twoColumnBrowseResultsRenderer [.tabRenderer (str "Live") false
          (some (.richGridRenderer contents))]⟩ channel_id options
        = .error (.noMatchingStream channel_id)) := by
  have hspec := findLoop_spec options
    (if isFirstPolicy options then contents.reverse else contents) none rfl
  refine ⟨?_, ?_, ?_, ?_⟩
  · intro v hv
    rw [select, hspec, hv]
  · intro hv ha
    rw [select, hspec, hv]
    simp only [ha, if_true]
    cases hlast : lastUpcomingId (if isFirstPolicy options then contents.reverse else contents) <;>
      simp
  · intro hv ha
    rw [select, hspec, hv]
    simp [ha]
  · intro channel_id hfail
    rw [show pick_live_stream ⟨.twoColumnBrowseResultsRenderer [.tabRenderer (str "Live") false
        (some (.richGridRenderer contents))]⟩ channel_id options
      = (if (select contents options).2 = true
          then match (select contents options).1 with
            | some p => .ok p.1
            | none => .error (.noMatchingStream channel_id)
          else .error (.noMatchingStream channel_id)) from ?_]
    · rw [hfail]
      simp
    · rw [pick_live_stream]
      simp only [List.find?]
      rw [show isLiveTab (.tabRenderer (str "Live") false
          (some (.richGridRenderer contents))) = true by simp [isLiveTab]]

/-- Witness for C2's amended claim at a concrete grid. -/
theorem c2_amended_selection_witness :
    select [liveItem "A", liveItem "B"] .firstLive = (some (str "B", true), true) ∧
    select [upcomingItem "U1", upcomingItem "U2"] .latestLiveOrUpcoming
      = (some (str "U2", false), false) ∧
    pick_live_stream ⟨.twoColumnBrowseResultsRenderer [.tabRenderer (str "Live") false
        (some (.richGridRenderer [upcomingItem "U1", upcomingItem "U2"]))]⟩
      (str "UCx") .latestLiveOrUpcoming = .error (.noMatchingStream (str "UCx")) :=
  ⟨(c2_amended_selection [liveItem "A", liveItem "B"] .firstLive).1 (str "B") (by decide),
   by
    have h := (c2_amended_selection [upcomingItem "U1", upcomingItem "U2"]
      .latestLiveOrUpcoming).2.1 (by decide) (by decide)
    simpa using h,
   (c2_amended_selection [upcomingItem "U1", upcomingItem "U2"]
      .latestLiveOrUpcoming).2.2.2 (str "UCx") (by decide)⟩

example : parseDigits (str "17") = some 17 := by decide
example : splitn2 ':' (str "25:0-0") = (str "25", some (str "0-0")) := by decide
example : get_utf8_slice (str "Kappa Kappa") 6 11 = some (str "Kappa") := by decide
example : get_utf8_slice (str "é") 1 2 = none := by decide
example : (str "a/").splitOn '/' = [str "a", []] := by decide
example : ([] : Str).splitOn '/' = [[]] := by decide
